import Mathlib

/-!
Verification of the medusa-js-types client SDK: the `FulfillmentSet` admin
resource module (src/dist/esm/admin/fulfillment-set.js) and the Auth service
layer whose public surface is declared in src/dist/esm/auth/index.d.ts.
Operations are embedded as pure functions over an explicit transport oracle;
each operation returns its value together with the ordered list of transport
calls it issued.
-/

/-- A parsed JSON value, as returned by the transport and passed verbatim as
request bodies, query records and header records. -/
inductive Json where
  | null
  | bool (b : Bool)
  | num (n : Int)
  | str (s : String)
  | arr (elems : List Json)
  | obj (fields : List (String × Json))
deriving Repr

/-- The argument record passed to `client.fetch(path, {method, headers, body?,
query?})`: an absent optional field is `none`. -/
structure FetchRequest where
  path : String
  method : String
  headers : Option Json := none
  body : Option Json := none
  query : Option Json := none
deriving Repr

/-- A non-2xx response surfaced by the transport, carrying the HTTP status and
the server-provided message. -/
structure TransportErr where
  status : Nat
  message : String
deriving Repr

/-- The transport contract: given a fetch request, return the parsed JSON body
or a typed error on non-2xx. -/
abbrev Transport := FetchRequest → Except TransportErr Json

/-- The value an operation resolves to, together with the fetch calls it
issued, in order. -/
structure TraceResult (ρ : Type) where
  value : ρ
  calls : List FetchRequest

/-- One call to `client.fetch`, recorded in the trace; the operation resolves
to whatever the transport returns. -/
def fetchCall (client : Transport) (req : FetchRequest) :
    TraceResult (Except TransportErr Json) :=
  ⟨client req, [req]⟩

/-- Embeds `FulfillmentSet.delete(id, headers)` from
src/dist/esm/admin/fulfillment-set.js: one fetch of
`/admin/fulfillment-sets/{id}` with method DELETE and the given headers. -/
def FulfillmentSet.delete (client : Transport) (id : String)
    (headers : Option Json) : TraceResult (Except TransportErr Json) :=
  fetchCall client
    { path := "/admin/fulfillment-sets/" ++ id
      method := "DELETE"
      headers := headers }

/-- Embeds `FulfillmentSet.createServiceZone(id, body, query, headers)` from
src/dist/esm/admin/fulfillment-set.js: one fetch of
`/admin/fulfillment-sets/{id}/service-zones` with method POST, the given
headers, body and query. -/
def FulfillmentSet.createServiceZone (client : Transport) (id : String)
    (body : Json) (query : Option Json) (headers : Option Json) :
    TraceResult (Except TransportErr Json) :=
  fetchCall client
    { path := "/admin/fulfillment-sets/" ++ id ++ "/service-zones"
      method := "POST"
      headers := headers
      body := some body
      query := query }

/-- Embeds `FulfillmentSet.retrieveServiceZone(fulfillmentSetId, serviceZoneId,
query, headers)` from src/dist/esm/admin/fulfillment-set.js: one fetch of
`/admin/fulfillment-sets/{fulfillmentSetId}/service-zones/{serviceZoneId}`
with method GET, the given headers and query. -/
def FulfillmentSet.retrieveServiceZone (client : Transport)
    (fulfillmentSetId serviceZoneId : String) (query : Option Json)
    (headers : Option Json) : TraceResult (Except TransportErr Json) :=
  fetchCall client
    { path := "/admin/fulfillment-sets/" ++ fulfillmentSetId ++
        "/service-zones/" ++ serviceZoneId
      method := "GET"
      headers := headers
      query := query }

/-- Embeds `FulfillmentSet.updateServiceZone(fulfillmentSetId, serviceZoneId,
body, query, headers)` from src/dist/esm/admin/fulfillment-set.js: one fetch
of `/admin/fulfillment-sets/{fulfillmentSetId}/service-zones/{serviceZoneId}`
with method POST, the given headers, body and query. -/
def FulfillmentSet.updateServiceZone (client : Transport)
    (fulfillmentSetId serviceZoneId : String) (body : Json)
    (query : Option Json) (headers : Option Json) :
    TraceResult (Except TransportErr Json) :=
  fetchCall client
    { path := "/admin/fulfillment-sets/" ++ fulfillmentSetId ++
        "/service-zones/" ++ serviceZoneId
      method := "POST"
      headers := headers
      body := some body
      query := query }

/-- Embeds `FulfillmentSet.deleteServiceZone(fulfillmentSetId, serviceZoneId,
headers)` from src/dist/esm/admin/fulfillment-set.js: one fetch of
`/admin/fulfillment-sets/{fulfillmentSetId}/service-zones/{serviceZoneId}`
with method DELETE and the given headers. -/
def FulfillmentSet.deleteServiceZone (client : Transport)
    (fulfillmentSetId serviceZoneId : String) (headers : Option Json) :
    TraceResult (Except TransportErr Json) :=
  fetchCall client
    { path := "/admin/fulfillment-sets/" ++ fulfillmentSetId ++
        "/service-zones/" ++ serviceZoneId
      method := "DELETE"
      headers := headers }

/-- Modelled from the spec: the Auth service implementation
(dist/esm/auth/index.js) is not among the source files; only its declaration
file src/dist/esm/auth/index.d.ts is. The configuration enum AuthMode is
`{bearer, session}`, fixed at client construction. -/
inductive AuthMode where
  | bearer
  | session
deriving Repr, DecidableEq

/-- Modelled from the spec: the Credential Store of the missing Auth
implementation holds the current authentication token, if any, or a session
indicator when a server-side session has been established in session mode.
Setting a new token replaces any prior one. -/
structure AuthState where
  token : Option String
  sessionEstablished : Bool
deriving Repr, DecidableEq

/-- The Credential Store state of a freshly constructed client: no token and
no session. -/
def emptyAuthState : AuthState :=
  { token := none, sessionEstablished := false }

/-- Modelled from the spec: the error taxonomy of the missing Auth
implementation. A non-2xx transport response surfaces as an authentication
failure carrying the HTTP status and server message; a 2xx response lacking
the expected field is surfaced as a malformed response. -/
inductive AuthError where
  | authenticationFailure (status : Nat) (message : String)
  | malformedResponse
deriving Repr, DecidableEq

/-- The outcome of an Auth service operation: its result, the Credential
Store state afterwards, and the transport calls issued, in order. -/
structure AuthOutcome (α : Type) where
  result : Except AuthError α
  state : AuthState
  calls : List FetchRequest

/-- Modelled from the spec: the two-shaped return value of the missing
`login` implementation — an authentication token, or a third-party redirect
location. -/
inductive LoginResult where
  | token (value : String)
  | location (url : String)
deriving Repr, DecidableEq

/-- Looks up a field of a JSON object; any non-object has no fields. -/
def Json.lookupField : Json → String → Option Json
  | .obj fields, key => fields.lookup key
  | _, _ => none

/-- The `token` field of a response body, when present as a string. -/
def Json.tokenField (j : Json) : Option String :=
  match j.lookupField "token" with
  | some (.str s) => some s
  | _ => none

/-- The `location` field of a response body, when present as a string. -/
def Json.locationField (j : Json) : Option String :=
  match j.lookupField "location" with
  | some (.str s) => some s
  | _ => none

/-- Modelled from the spec: path convention of the missing register
implementation, `POST /{actor}/auth/{method}/register` with the payload as
body. -/
def registerRequest (actor method : String) (payload : Json) : FetchRequest :=
  { path := "/" ++ actor ++ "/auth/" ++ method ++ "/register"
    method := "POST"
    body := some payload }

/-- Modelled from the spec: path convention of the missing login
implementation, `POST /{actor}/auth/{method}` with the payload as body. -/
def loginRequest (actor method : String) (payload : Json) : FetchRequest :=
  { path := "/" ++ actor ++ "/auth/" ++ method
    method := "POST"
    body := some payload }

/-- Modelled from the spec: path convention of the missing callback
implementation, `POST /{actor}/auth/{method}/callback` forwarding all
provided query parameters verbatim. -/
def callbackRequest (actor method : String) (query : Option Json) :
    FetchRequest :=
  { path := "/" ++ actor ++ "/auth/" ++ method ++ "/callback"
    method := "POST"
    query := query }

/-- Modelled from the spec: the session-creation call of the missing
implementation, `POST /auth/session`, session mode only, carrying the token
just obtained as its credential. -/
def sessionCreateRequest (tok : String) : FetchRequest :=
  { path := "/auth/session"
    method := "POST"
    headers := some (.obj [("authorization", .str ("Bearer " ++ tok))]) }

/-- Modelled from the spec: the fixed refresh path of the missing
implementation, `POST /auth/token/refresh`; ambient credentials are attached
by the transport layer, not constructed here. -/
def refreshRequest : FetchRequest :=
  { path := "/auth/token/refresh"
    method := "POST" }

/-- Modelled from the spec: the fixed session-deletion path of the missing
logout implementation, `DELETE /auth/session`. -/
def logoutRequest : FetchRequest :=
  { path := "/auth/session"
    method := "DELETE" }

/-- Modelled from the spec: path convention of the missing updateProvider
implementation, `POST /{actor}/auth/{provider}/update`, attaching the
explicitly supplied token as the request's authentication credential. -/
def updateProviderRequest (actor provider : String) (body : Json)
    (tok : String) : FetchRequest :=
  { path := "/" ++ actor ++ "/auth/" ++ provider ++ "/update"
    method := "POST"
    headers := some (.obj [("authorization", .str ("Bearer " ++ tok))])
    body := some body }

/-- Modelled from the spec: how the missing implementation establishes the
obtained token as the ambient credential. In bearer mode the token is stored
in the Credential Store; in session mode a second transport call (POST to the
session-creation path) establishes a server-side session, and a non-2xx reply
to it surfaces as an authentication failure. -/
def Auth.establish (mode : AuthMode) (t : Transport) (st : AuthState)
    (tok : String) (priorCalls : List FetchRequest) : AuthOutcome String :=
  match mode with
  | .bearer => ⟨.ok tok, { st with token := some tok }, priorCalls⟩
  | .session =>
    match t (sessionCreateRequest tok) with
    | .ok _ =>
      ⟨.ok tok, { st with sessionEstablished := true },
        priorCalls ++ [sessionCreateRequest tok]⟩
    | .error e =>
      ⟨.error (.authenticationFailure e.status e.message), st,
        priorCalls ++ [sessionCreateRequest tok]⟩

/-- Modelled from the spec: the missing register implementation. POST to the
register path; on success the response body's token field is returned
directly — not stored in the Credential Store. -/
def Auth.register (t : Transport) (st : AuthState) (actor method : String)
    (payload : Json) : AuthOutcome String :=
  let req := registerRequest actor method payload
  match t req with
  | .error e => ⟨.error (.authenticationFailure e.status e.message), st, [req]⟩
  | .ok body =>
    match body.tokenField with
    | some tok => ⟨.ok tok, st, [req]⟩
    | none => ⟨.error .malformedResponse, st, [req]⟩

/-- Modelled from the spec: the missing login implementation. POST to the
login path; a response with a `location` field returns the redirect location
without storing anything; a response with a token stores or establishes it
per the mode and returns it. -/
def Auth.login (mode : AuthMode) (t : Transport) (st : AuthState)
    (actor method : String) (payload : Json) : AuthOutcome LoginResult :=
  let req := loginRequest actor method payload
  match t req with
  | .error e => ⟨.error (.authenticationFailure e.status e.message), st, [req]⟩
  | .ok body =>
    match body.locationField with
    | some loc => ⟨.ok (.location loc), st, [req]⟩
    | none =>
      match body.tokenField with
      | none => ⟨.error .malformedResponse, st, [req]⟩
      | some tok =>
        let est := Auth.establish mode t st tok [req]
        ⟨est.result.map .token, est.state, est.calls⟩

/-- Modelled from the spec: the missing callback implementation. POST to the
callback path forwarding the query parameters verbatim; stores the returned
token exactly as login does, including the session-mode follow-up call. -/
def Auth.callback (mode : AuthMode) (t : Transport) (st : AuthState)
    (actor method : String) (query : Option Json) : AuthOutcome String :=
  let req := callbackRequest actor method query
  match t req with
  | .error e => ⟨.error (.authenticationFailure e.status e.message), st, [req]⟩
  | .ok body =>
    match body.tokenField with
    | none => ⟨.error .malformedResponse, st, [req]⟩
    | some tok => Auth.establish mode t st tok [req]

/-- Whether any prior authentication exists: a stored token or an
established session. -/
def AuthState.hasCredential (st : AuthState) : Bool :=
  st.token.isSome || st.sessionEstablished

/-- Modelled from the spec: the missing refresh implementation. Requires an
existing token/session; with no prior authentication it fails with a surfaced
authentication failure and issues no transport call. Otherwise POST to the
fixed refresh path and replace the stored token with the refreshed one. -/
def Auth.refresh (t : Transport) (st : AuthState) : AuthOutcome String :=
  if st.hasCredential then
    match t refreshRequest with
    | .error e =>
      ⟨.error (.authenticationFailure e.status e.message), st, [refreshRequest]⟩
    | .ok body =>
      match body.tokenField with
      | some tok => ⟨.ok tok, { st with token := some tok }, [refreshRequest]⟩
      | none => ⟨.error .malformedResponse, st, [refreshRequest]⟩
  else
    ⟨.error (.authenticationFailure 401 "No prior authentication"), st, []⟩

/-- Modelled from the spec: the missing logout implementation. DELETE to the
fixed session path; on success the Credential Store is cleared, idempotently
even if it held nothing. -/
def Auth.logout (t : Transport) (st : AuthState) : AuthOutcome Unit :=
  match t logoutRequest with
  | .ok _ => ⟨.ok (), emptyAuthState, [logoutRequest]⟩
  | .error e =>
    ⟨.error (.authenticationFailure e.status e.message), st, [logoutRequest]⟩

/-- Modelled from the spec: the missing updateProvider implementation. POST
to the update path, attaching the explicitly supplied token as the request's
credential; the Credential Store is neither read nor written. -/
def Auth.updateProvider (t : Transport) (st : AuthState)
    (actor provider : String) (body : Json) (tok : String) :
    AuthOutcome Unit :=
  let req := updateProviderRequest actor provider body tok
  match t req with
  | .ok _ => ⟨.ok (), st, [req]⟩
  | .error e =>
    ⟨.error (.authenticationFailure e.status e.message), st, [req]⟩

/-- A transport whose every response is a 2xx whose body carries the token
`tkn_1`. -/
def tokenTransport : Transport :=
  fun _ => .ok (.obj [("token", .str "tkn_1")])

/-- A transport whose every response is a 2xx whose body carries a redirect
location. -/
def locationTransport : Transport :=
  fun _ => .ok (.obj [("location", .str "https://oauth/start")])

/-- A transport whose every response is an empty 2xx. -/
def okTransport : Transport :=
  fun _ => .ok (.obj [])

/-- A transport that answers the Google OAuth callback and login routes for
customers with the token `tkn_2` and everything else with an empty 2xx. -/
def oauthTransport : Transport := fun req =>
  if req.path = "/customer/auth/google/callback" then
    .ok (.obj [("token", .str "tkn_2")])
  else if req.path = "/customer/auth/google" then
    .ok (.obj [("token", .str "tkn_2")])
  else
    .ok (.obj [])
/-- Claim C3: every FulfillmentSet operation issues exactly one transport call,
and the URL path, HTTP verb, query, body and headers of that call are the
stated pure function of the operation's arguments (independent of the
client). -/
theorem fulfillmentSet_single_call (client : Transport) (f z : String)
    (b : Json) (q : Option Json) (h : Option Json) :
    (FulfillmentSet.delete client f h).calls =
      [{ path := "/admin/fulfillment-sets/" ++ f, method := "DELETE",
         headers := h }] ∧
    (FulfillmentSet.createServiceZone client f b q h).calls =
      [{ path := "/admin/fulfillment-sets/" ++ f ++ "/service-zones",
         method := "POST", headers := h, body := some b, query := q }] ∧
    (FulfillmentSet.retrieveServiceZone client f z q h).calls =
      [{ path := "/admin/fulfillment-sets/" ++ f ++ "/service-zones/" ++ z,
         method := "GET", headers := h, query := q }] ∧
    (FulfillmentSet.updateServiceZone client f z b q h).calls =
      [{ path := "/admin/fulfillment-sets/" ++ f ++ "/service-zones/" ++ z,
         method := "POST", headers := h, body := some b, query := q }] ∧
    (FulfillmentSet.deleteServiceZone client f z h).calls =
      [{ path := "/admin/fulfillment-sets/" ++ f ++ "/service-zones/" ++ z,
         method := "DELETE", headers := h }] :=
  ⟨rfl, rfl, rfl, rfl, rfl⟩

/-- Claim C9: every FulfillmentSet operation resolves to exactly what the
transport returned for its single request, unchanged. -/
theorem fulfillmentSet_returns_transport_value (client : Transport)
    (f z : String) (b : Json) (q : Option Json) (h : Option Json) :
    (FulfillmentSet.delete client f h).value =
      client { path := "/admin/fulfillment-sets/" ++ f, method := "DELETE",
               headers := h } ∧
    (FulfillmentSet.createServiceZone client f b q h).value =
      client { path := "/admin/fulfillment-sets/" ++ f ++ "/service-zones",
               method := "POST", headers := h, body := some b, query := q } ∧
    (FulfillmentSet.retrieveServiceZone client f z q h).value =
      client { path := "/admin/fulfillment-sets/" ++ f ++ "/service-zones/" ++ z,
               method := "GET", headers := h, query := q } ∧
    (FulfillmentSet.updateServiceZone client f z b q h).value =
      client { path := "/admin/fulfillment-sets/" ++ f ++ "/service-zones/" ++ z,
               method := "POST", headers := h, body := some b, query := q } ∧
    (FulfillmentSet.deleteServiceZone client f z h).value =
      client { path := "/admin/fulfillment-sets/" ++ f ++ "/service-zones/" ++ z,
               method := "DELETE", headers := h } :=
  ⟨rfl, rfl, rfl, rfl, rfl⟩

/-- Claim C10: the two delete operations send requests containing only the
DELETE method and the caller-supplied headers, with no body and no query,
while createServiceZone, retrieveServiceZone and updateServiceZone forward
the caller's query. -/
theorem fulfillmentSet_delete_ops_no_query_no_body (client : Transport)
    (f z : String) (b : Json) (q : Option Json) (h : Option Json) :
    ((FulfillmentSet.delete client f h).calls.map
        fun r => (r.method, r.headers, r.body, r.query)) =
      [("DELETE", h, none, none)] ∧
    ((FulfillmentSet.deleteServiceZone client f z h).calls.map
        fun r => (r.method, r.headers, r.body, r.query)) =
      [("DELETE", h, none, none)] ∧
    ((FulfillmentSet.createServiceZone client f b q h).calls.map
        fun r => r.query) = [q] ∧
    ((FulfillmentSet.retrieveServiceZone client f z q h).calls.map
        fun r => r.query) = [q] ∧
    ((FulfillmentSet.updateServiceZone client f z b q h).calls.map
        fun r => r.query) = [q] :=
  ⟨rfl, rfl, rfl, rfl, rfl⟩

/-- Claim C1: for every successful login call in bearer mode whose response
body carries a token (the token outcome, i.e. no redirect location), the
Credential Store afterwards holds exactly that token and login returns it. -/
theorem login_bearer_stores_and_returns_token (t : Transport) (st : AuthState)
    (actor method : String) (payload body : Json) (tok : String)
    (hresp : t (loginRequest actor method payload) = .ok body)
    (hloc : body.locationField = none)
    (htok : body.tokenField = some tok) :
    (Auth.login .bearer t st actor method payload).state.token = some tok ∧
    (Auth.login .bearer t st actor method payload).result = .ok (.token tok) := by
  simp [Auth.login, Auth.establish, hresp, hloc, htok, Except.map]

/-- Witness for C1: a concrete bearer-mode login against a transport whose
body carries `tkn_1` stores and returns `tkn_1`. -/
theorem login_bearer_stores_and_returns_token_witness :
    (Auth.login .bearer tokenTransport emptyAuthState "customer" "emailpass"
      (.obj [])).state.token = some "tkn_1" ∧
    (Auth.login .bearer tokenTransport emptyAuthState "customer" "emailpass"
      (.obj [])).result = .ok (.token "tkn_1") :=
  login_bearer_stores_and_returns_token tokenTransport emptyAuthState
    "customer" "emailpass" (.obj []) (.obj [("token", .str "tkn_1")]) "tkn_1"
    rfl rfl rfl

/-- Claim C2: login has exactly two result shapes, a token or a redirect
location, and when the response carries a `location` field login returns that
location and leaves the Credential Store unchanged, in every mode. -/
theorem login_location_returned_without_storing (mode : AuthMode)
    (t : Transport) (st : AuthState) (actor method : String)
    (payload body : Json) (loc : String)
    (hresp : t (loginRequest actor method payload) = .ok body)
    (hloc : body.locationField = some loc) :
    (∀ r : LoginResult, (∃ v, r = .token v) ∨ (∃ u, r = .location u)) ∧
    (Auth.login mode t st actor method payload).result = .ok (.location loc) ∧
    (Auth.login mode t st actor method payload).state = st := by
  refine ⟨fun r => ?_, ?_, ?_⟩
  · cases r with
    | token v => exact .inl ⟨v, rfl⟩
    | location u => exact .inr ⟨u, rfl⟩
  · simp [Auth.login, hresp, hloc]
  · simp [Auth.login, hresp, hloc]

/-- Witness for C2: a concrete login whose response carries a location field
returns that location and leaves the empty store empty. -/
theorem login_location_returned_without_storing_witness :
    (∀ r : LoginResult, (∃ v, r = .token v) ∨ (∃ u, r = .location u)) ∧
    (Auth.login .bearer locationTransport emptyAuthState "customer" "google"
      (.obj [])).result = .ok (.location "https://oauth/start") ∧
    (Auth.login .bearer locationTransport emptyAuthState "customer" "google"
      (.obj [])).state = emptyAuthState :=
  login_location_returned_without_storing .bearer locationTransport
    emptyAuthState "customer" "google" (.obj [])
    (.obj [("location", .str "https://oauth/start")]) "https://oauth/start"
    rfl rfl

/-- Claim C4: logout is idempotent: from any prior Credential Store state it
succeeds and leaves no token; on the empty store it succeeds and the store
stays empty; and logout after logout yields the same store state as a single
logout. -/
theorem logout_idempotent (t : Transport) (st : AuthState) (b : Json)
    (hresp : t logoutRequest = .ok b) :
    (Auth.logout t st).result = .ok () ∧
    (Auth.logout t st).state.token = none ∧
    ((Auth.logout t emptyAuthState).result = .ok () ∧
      (Auth.logout t emptyAuthState).state = emptyAuthState) ∧
    (Auth.logout t (Auth.logout t st).state).state = (Auth.logout t st).state := by
  simp [Auth.logout, hresp, emptyAuthState]

/-- Witness for C4: a concrete logout from a store holding a token succeeds,
clears the token, and repeating it changes nothing. -/
theorem logout_idempotent_witness :
    (Auth.logout okTransport { token := some "tkn_1", sessionEstablished := false }).result = .ok () ∧
    (Auth.logout okTransport { token := some "tkn_1", sessionEstablished := false }).state.token = none ∧
    ((Auth.logout okTransport emptyAuthState).result = .ok () ∧
      (Auth.logout okTransport emptyAuthState).state = emptyAuthState) ∧
    (Auth.logout okTransport
        (Auth.logout okTransport { token := some "tkn_1", sessionEstablished := false }).state).state =
      (Auth.logout okTransport { token := some "tkn_1", sessionEstablished := false }).state :=
  logout_idempotent okTransport
    { token := some "tkn_1", sessionEstablished := false } (.obj []) rfl

/-- Claim C5: refresh with no stored token and no prior authentication fails
with an AuthenticationFailure, and the Credential Store remains empty. -/
theorem refresh_without_credential_fails (t : Transport) :
    (∃ s m, (Auth.refresh t emptyAuthState).result =
      .error (.authenticationFailure s m)) ∧
    (Auth.refresh t emptyAuthState).state = emptyAuthState := by
  constructor
  · exact ⟨401, "No prior authentication",
      by simp [Auth.refresh, emptyAuthState, AuthState.hasCredential]⟩
  · simp [Auth.refresh, emptyAuthState, AuthState.hasCredential]

/-- Claim C6: register never mutates the Credential Store, whatever the
transport's response; and when the response body carries a token, that token
is returned directly to the caller. -/
theorem register_never_mutates_store (t : Transport) (st : AuthState)
    (actor method : String) (payload : Json) :
    (Auth.register t st actor method payload).state = st ∧
    (∀ body tok, t (registerRequest actor method payload) = .ok body →
      body.tokenField = some tok →
      (Auth.register t st actor method payload).result = .ok tok) := by
  constructor
  · cases hr : t (registerRequest actor method payload) with
    | error e => simp [Auth.register, hr]
    | ok body => cases ht : body.tokenField <;> simp [Auth.register, hr, ht]
  · intro body tok hresp htok
    simp [Auth.register, hresp, htok]

/-- Witness for C6: a concrete register call leaves the store untouched and
returns the token from the response body. -/
theorem register_never_mutates_store_witness :
    (Auth.register tokenTransport emptyAuthState "customer" "emailpass"
      (.obj [])).state = emptyAuthState ∧
    (Auth.register tokenTransport emptyAuthState "customer" "emailpass"
      (.obj [])).result = .ok "tkn_1" :=
  ⟨(register_never_mutates_store tokenTransport emptyAuthState "customer"
      "emailpass" (.obj [])).1,
   (register_never_mutates_store tokenTransport emptyAuthState "customer"
      "emailpass" (.obj [])).2 (.obj [("token", .str "tkn_1")]) "tkn_1"
      rfl rfl⟩

/-- Claim C7: updateProvider neither reads from nor writes to the Credential
Store: its single request and its result are identical for any two store
states, the store is returned unchanged, and the request it sends carries the
explicitly supplied token as its credential. -/
theorem updateProvider_ignores_credential_store (t : Transport)
    (actor provider : String) (body : Json) (tok : String)
    (st₁ st₂ : AuthState) :
    (Auth.updateProvider t st₁ actor provider body tok).calls =
      (Auth.updateProvider t st₂ actor provider body tok).calls ∧
    (Auth.updateProvider t st₁ actor provider body tok).result =
      (Auth.updateProvider t st₂ actor provider body tok).result ∧
    (Auth.updateProvider t st₁ actor provider body tok).state = st₁ ∧
    (Auth.updateProvider t st₁ actor provider body tok).calls =
      [updateProviderRequest actor provider body tok] := by
  cases hr : t (updateProviderRequest actor provider body tok) <;>
    simp [Auth.updateProvider, hr]

/-- Claim C8: in session mode, a callback (and likewise a login) whose
response carries a token issues exactly two transport calls — the
callback/login request, then the session-creation POST — establishes the
session, and returns the token. -/
theorem callback_session_mode_two_calls (t : Transport) (st : AuthState)
    (actor method : String) (q : Option Json) (body sessionBody : Json)
    (tok : String) (payload lbody : Json)
    (hcb : t (callbackRequest actor method q) = .ok body)
    (htok : body.tokenField = some tok)
    (hsess : t (sessionCreateRequest tok) = .ok sessionBody)
    (hlogin : t (loginRequest actor method payload) = .ok lbody)
    (hlloc : lbody.locationField = none)
    (hltok : lbody.tokenField = some tok) :
    (Auth.callback .session t st actor method q).calls =
      [callbackRequest actor method q, sessionCreateRequest tok] ∧
    ((Auth.callback .session t st actor method q).state.token = some tok ∨
      (Auth.callback .session t st actor method q).state.sessionEstablished = true) ∧
    (Auth.callback .session t st actor method q).result = .ok tok ∧
    (Auth.login .session t st actor method payload).calls =
      [loginRequest actor method payload, sessionCreateRequest tok] ∧
    (Auth.login .session t st actor method payload).result = .ok (.token tok) := by
  simp [Auth.callback, Auth.login, Auth.establish, hcb, htok, hsess, hlogin,
    hlloc, hltok, Except.map]

/-- Witness for C8: the concrete OAuth callback scenario in session mode
issues the callback call then the session-create call, establishes the
session, and returns `tkn_2`; likewise for login. -/
theorem callback_session_mode_two_calls_witness :
    (Auth.callback .session oauthTransport emptyAuthState "customer" "google"
      (some (.obj [("code", .str "123")]))).calls =
      [callbackRequest "customer" "google" (some (.obj [("code", .str "123")])),
        sessionCreateRequest "tkn_2"] ∧
    ((Auth.callback .session oauthTransport emptyAuthState "customer" "google"
        (some (.obj [("code", .str "123")]))).state.token = some "tkn_2" ∨
      (Auth.callback .session oauthTransport emptyAuthState "customer" "google"
        (some (.obj [("code", .str "123")]))).state.sessionEstablished = true) ∧
    (Auth.callback .session oauthTransport emptyAuthState "customer" "google"
      (some (.obj [("code", .str "123")]))).result = .ok "tkn_2" ∧
    (Auth.login .session oauthTransport emptyAuthState "customer" "google"
      (.obj [])).calls =
      [loginRequest "customer" "google" (.obj []), sessionCreateRequest "tkn_2"] ∧
    (Auth.login .session oauthTransport emptyAuthState "customer" "google"
      (.obj [])).result = .ok (.token "tkn_2") :=
  callback_session_mode_two_calls oauthTransport emptyAuthState "customer"
    "google" (some (.obj [("code", .str "123")]))
    (.obj [("token", .str "tkn_2")]) (.obj []) "tkn_2" (.obj [])
    (.obj [("token", .str "tkn_2")]) rfl rfl rfl rfl rfl rfl
